import Mathlib

/-!
Verification of `src/examples/sample.py`, a single-file demonstration
script.  The script is embedded shallowly: the `Person` dataclass becomes a
structure, `calculate_area` a function over ℚ, the placeholder asynchronous
`fetch_user_data` a pure function returning its printed lines together with
an `Option` result, Python dictionaries become insertion-ordered association
lists, and the whole top-level script body becomes a pure function from
`Unit` to the ordered list of console lines together with the exit code.
-/

namespace Sample

/-- The `Person` dataclass of `sample.py`: a textual name and an integer
age, immutable once constructed. -/
structure Person where
  name : String
  age : Int
deriving DecidableEq, Repr

/-- `Person.greet`: returns the f-string
`"Hello, my name is {self.name} and I am {self.age} years old."`. -/
def Person.greet (p : Person) : String :=
  "Hello, my name is " ++ p.name ++ " and I am " ++ toString p.age ++
    " years old."

/-- `Person.create_person`: the classmethod factory, which forwards its
arguments unchanged to the constructor (`return cls(name, age)`). -/
def Person.create_person (name : String) (age : Int) : Person :=
  Person.mk name age

/-- `calculate_area`: `PI = 3.14159; return PI * radius * radius`.  The
Python float arithmetic is embedded over ℚ; the literal `3.14159` is the
exact rational `314159 / 100000`. -/
def calculate_area (radius : ℚ) : ℚ :=
  let PI : ℚ := 314159 / 100000
  PI * radius * radius

/-- The record built inside `fetch_user_data`:
`{"id": user_id, "name": "John Doe", "email": f"user{user_id}@example.com"}`. -/
structure UserData where
  id : Int
  name : String
  email : String
deriving DecidableEq, Repr

/-- The `try`-block body of `fetch_user_data`: a `print` call followed by the
construction of the simulated API response.  Neither statement can raise, so
the body is embedded as an `Except` computation that always succeeds,
returning the printed lines and the record.  The `except` arm of the source
is kept in `fetch_user_data` below, dispatching on this result. -/
def fetch_body (user_id : Int) : Except String (List String × UserData) :=
  Except.ok (["Fetching user data for ID: " ++ toString user_id],
    UserData.mk user_id "John Doe"
      ("user" ++ toString user_id ++ "@example.com"))

/-- `fetch_user_data`: runs the `try` body; on an exception `e` it would
print `"Error fetching user data: {e}"` and return `None`.  The result is
the pair (printed lines, optional record). -/
def fetch_user_data (user_id : Int) : List String × Option UserData :=
  match fetch_body user_id with
  | Except.ok (out, d) => (out, some d)
  | Except.error e => (["Error fetching user data: " ++ e], none)

/-- Python `dict` insertion on an insertion-ordered association list: a key
already present keeps its position and has its value overwritten; a fresh
key is appended at the end. -/
def dictInsert {α β : Type} [BEq α] (d : List (α × β)) (k : α) (v : β) :
    List (α × β) :=
  if d.any (fun p => p.1 == k) then
    d.map (fun p => if p.1 == k then (k, v) else p)
  else
    d ++ [(k, v)]

/-- Python `dict.get(key, default)` on an association list. -/
def dictGet {α β : Type} [BEq α] (d : List (α × β)) (k : α) (dflt : β) : β :=
  match d.find? (fun p => p.1 == k) with
  | some p => p.2
  | none => dflt

/-- Top-level binding `numbers = [1, 2, 3, 4, 5]`. -/
def numbers : List Int := [1, 2, 3, 4, 5]

/-- `doubled = [num * 2 for num in numbers]`. -/
def doubled : List Int := numbers.map (fun num => num * 2)

/-- `even = [num for num in numbers if num % 2 == 0]`. -/
def even : List Int := numbers.filter (fun num => num % 2 == 0)

/-- `squares_generator = (x**2 for x in range(10))`: the generator is
embedded by the finite sequence of elements it yields when fully consumed. -/
def squares_generator : List Int := (List.range 10).map (fun x => (x : Int) ^ 2)

/-- `name_to_age = {"Alice": 30, "Bob": 25, "Charlie": 35}` as an
insertion-ordered association list. -/
def name_to_age : List (String × Int) :=
  [("Alice", 30), ("Bob", 25), ("Charlie", 35)]

/-- `age_to_name = {age: name for name, age in name_to_age.items()}`: each
pair is inverted and inserted in iteration order with Python `dict`
overwrite-on-collision semantics. -/
def age_to_name : List (Int × String) :=
  name_to_age.foldl (fun acc p => dictInsert acc p.2 p.1) []

/-- `colors = {"red": "#FF0000", "green": "#00FF00", "blue": "#0000FF"}`. -/
def colors : List (String × String) :=
  [("red", "#FF0000"), ("green", "#00FF00"), ("blue", "#0000FF")]

/-- Numeric value of a list of decimal digit characters. -/
def digitsVal (cs : List Char) : Int :=
  cs.foldl (fun acc c => acc * 10 + (Int.ofNat (c.toNat - 48))) 0

/-- Python `str.strip()` on a character list: leading and trailing
whitespace removed. -/
def stripWs (cs : List Char) : List Char :=
  ((cs.dropWhile Char.isWhitespace).reverse.dropWhile Char.isWhitespace).reverse

/-- Model of CPython's builtin `int(str)`: surrounding whitespace is
stripped, an optional single sign is allowed, and the rest must be a
nonempty run of decimal digits; anything else raises
`ValueError: invalid literal for int() with base 10: '...'` (the message
quotes the repr of the original string).  Underscore digit grouping, which
the script never exercises, is omitted. -/
def pyIntParse (s : String) : Except String Int :=
  let core : Option Int :=
    match stripWs s.toList with
    | [] => none
    | c :: rest =>
      let signed : Int × List Char :=
        if c = '-' then (-1, rest)
        else if c = '+' then (1, rest)
        else (1, c :: rest)
      if signed.2 ≠ [] ∧ signed.2.all Char.isDigit then
        some (signed.1 * digitsVal signed.2)
      else none
  match core with
  | some n => Except.ok n
  | none =>
      Except.error ("invalid literal for int() with base 10: \x27" ++ s ++
        "\x27")

/-- Python `repr` of a list of ints, as produced by `print("Doubled:", doubled)`. -/
def pyReprIntList (l : List Int) : String :=
  "[" ++ String.intercalate ", " (l.map toString) ++ "]"

/-- CPython `repr` of a float holding a whole number, the only case the
script prints raw (`radius = 5.0`): the integer part followed by `.0`. -/
def pyFloatRepr (q : ℚ) : String :=
  if q.den = 1 then toString q.num ++ ".0"
  else toString q.num ++ "/" ++ toString q.den

/-- Render an integer number of hundredths with exactly two fractional
digits (for nonnegative values, the only case the script exercises). -/
def formatCents (n : Int) : String :=
  let frac : Nat := (n % 100).natAbs
  toString (n / 100) ++ "." ++
    (if frac < 10 then "0" ++ toString frac else toString frac)

/-- The `{value:.2f}` rendering used for the area: round to the nearest
hundredth (the script's value is not at a tie, so half-even and half-up
agree) and print with exactly two fractional digits. -/
def formatHundredths (q : ℚ) : String :=
  formatCents (Int.floor (q * 100 + 1 / 2))

/-- The three `print` lines of the top-level script body (lines 61-63). -/
def topLevelOutput : List String :=
  ["Doubled: " ++ pyReprIntList doubled,
   "Even numbers: " ++ pyReprIntList even,
   "Sum: " ++ toString numbers.sum]

/-- The lines printed by the `try`/`except ValueError` block at the end of
`__main__`: nothing on success, the diagnostic on a caught parse failure. -/
def conversionLines : List String :=
  match pyIntParse "not a number" with
  | Except.ok _ => []
  | Except.error e => ["Conversion error: " ++ e]

/-- The lines printed by the guarded `__main__` block (lines 70-88). -/
def mainBlockOutput : List String :=
  [(Person.mk "Alice" 30).greet,
   "Area of circle with radius " ++ pyFloatRepr 5 ++ ": " ++
     formatHundredths (calculate_area 5),
   "Yellow color code: " ++ dictGet colors "yellow" "Not found"] ++
  conversionLines

/-- One complete execution of the script: the ordered console lines and the
process exit code.  Every step of the script is total and its one fallible
operation is caught by the surrounding handler, so the run always completes
and the interpreter exits with code 0. -/
def scriptRun (_u : Unit) : List String × Nat :=
  (topLevelOutput ++ mainBlockOutput, 0)

/-- A definition following the words of the spec for C5: the "direct
construction" path for the record. -/
def directConstruct (name : String) (age : Int) : Person :=
  Person.mk name age

/-- The area printed by the script is 7854 hundredths after rounding. -/
theorem area_cents : (⌊calculate_area 5 * 100 + 1 / 2⌋ : ℤ) = 7854 := by
  norm_num [calculate_area]

/-- The `:.2f` rendering of the area at radius 5. -/
theorem formatHundredths_area : formatHundredths (calculate_area 5) = "78.54" := by
  unfold formatHundredths
  rw [area_cents]
  decide

/-- The raw rendering of the radius literal `5.0`. -/
theorem pyFloatRepr_five : pyFloatRepr 5 = "5.0" := by
  have hd : (5 : ℚ).den = 1 := by norm_num
  have hn : (5 : ℚ).num = 5 := by norm_num
  unfold pyFloatRepr
  rw [if_pos hd, hn]
  rfl

/-- The full area line printed by the `__main__` block. -/
theorem areaLine :
    "Area of circle with radius " ++ pyFloatRepr 5 ++ ": " ++
      formatHundredths (calculate_area 5) =
      "Area of circle with radius 5.0: 78.54" := by
  rw [pyFloatRepr_five, formatHundredths_area]
  rfl

end Sample

open Sample

/-- C1: for every integer id, `fetch_user_data id` returns the present
record with that id, name `"John Doe"` and email `"user{id}@example.com"`;
its result component is never `none`, i.e. the `except` branch is
unreachable (the `try` body always succeeds). -/
theorem C1_fetch_user_data_never_absent (user_id : Int) :
    (fetch_user_data user_id).2 =
      some (UserData.mk user_id "John Doe"
        ("user" ++ toString user_id ++ "@example.com")) ∧
    (fetch_user_data user_id).2 ≠ none ∧
    (fetch_body user_id).isOk = true := by
  refine ⟨rfl, ?_, rfl⟩
  intro h
  simp [fetch_user_data, fetch_body] at h

/-- C2: parsing the literal `"not a number"` as an integer fails with the
bad-numeric-format error; the script catches it, prints the diagnostic as
its final output line, and the process still terminates with exit code 0
after emitting all its lines. -/
theorem C2_parse_failure_caught :
    pyIntParse "not a number" =
      Except.error "invalid literal for int() with base 10: \x27not a number\x27" ∧
    (scriptRun ()).1.getLast? =
      some "Conversion error: invalid literal for int() with base 10: \x27not a number\x27" ∧
    (scriptRun ()).2 = 0 := by
  refine ⟨rfl, by decide, rfl⟩

/-- C3: for every name and age, `greet` on the constructed record returns
exactly `"Hello, my name is {name} and I am {age} years old."`; in
particular at ("Alice", 30) it returns the expected literal. -/
theorem C3_greet_format (n : String) (a : Int) :
    (Person.mk n a).greet =
      "Hello, my name is " ++ n ++ " and I am " ++ toString a ++
        " years old." ∧
    (Person.mk "Alice" 30).greet =
      "Hello, my name is Alice and I am 30 years old." :=
  ⟨rfl, rfl⟩

/-- C4: for every radius r, `calculate_area r = 3.14159 * r * r`; for every
strictly negative r the result is positive; and the result at r = 5,
rendered to two decimal places, is `"78.54"`. -/
theorem C4_calculate_area_spec (r : ℚ) :
    calculate_area r = 314159 / 100000 * r * r ∧
    (r < 0 → 0 < calculate_area r) ∧
    formatHundredths (calculate_area 5) = "78.54" := by
  refine ⟨rfl, ?_, formatHundredths_area⟩
  intro h
  have hrr : 0 < r * r := mul_pos_of_neg_of_neg h h
  have hPI : (0 : ℚ) < 314159 / 100000 := by norm_num
  calc (0 : ℚ) < 314159 / 100000 * (r * r) := mul_pos hPI hrr
    _ = calculate_area r := by unfold calculate_area; ring

/-- Witness for C4 at the concrete negative radius r = -2. -/
theorem C4_calculate_area_spec_witness :
    (-2 : ℚ) < 0 ∧ 0 < calculate_area (-2) :=
  ⟨by norm_num, (C4_calculate_area_spec (-2)).2.1 (by norm_num)⟩

/-- C5: the factory `create_person` forwards its arguments unchanged, so it
is equivalent to direct construction for every name and age. -/
theorem C5_factory_equals_direct (n : String) (a : Int) :
    Person.create_person n a = directConstruct n a :=
  rfl

/-- C6: the fixed sequence [1,2,3,4,5] doubled is [2,4,6,8,10], filtered to
evens is [2,4], and its sum is 15. -/
theorem C6_list_transformations :
    doubled = [2, 4, 6, 8, 10] ∧ even = [2, 4] ∧ numbers.sum = 15 := by
  refine ⟨by decide, by decide, by decide⟩

/-- C7: the lazy square sequence over 0..9, fully consumed, is exactly
[0,1,4,9,16,25,36,49,64,81], of length exactly 10. -/
theorem C7_squares_generator :
    squares_generator = [0, 1, 4, 9, 16, 25, 36, 49, 64, 81] ∧
    squares_generator.length = 10 := by
  refine ⟨by decide, by decide⟩

/-- C8: inverting {"Alice":30, "Bob":25, "Charlie":35} yields exactly
{30:"Alice", 25:"Bob", 35:"Charlie"}: each pair is inverted, the age keys
are pairwise distinct (no collisions), and the entry count is preserved. -/
theorem C8_dict_inversion :
    age_to_name = [(30, "Alice"), (25, "Bob"), (35, "Charlie")] ∧
    (age_to_name.map Prod.fst).Nodup ∧
    age_to_name.length = name_to_age.length := by
  refine ⟨by decide, by decide, by decide⟩

/-- C9: for every integer id, `fetch_user_data id` emits exactly the console
line `"Fetching user data for ID: {id}"` (and no other) before returning
its record. -/
theorem C9_fetch_prints_line (user_id : Int) :
    (fetch_user_data user_id).1 =
      ["Fetching user data for ID: " ++ toString user_id] :=
  rfl

/-- C10: the script is deterministic: any two complete executions produce
the same console lines in the same order; concretely, every run produces
exactly this fixed sequence of seven lines and exit code 0. -/
theorem C10_script_deterministic :
    (∀ u v : Unit, scriptRun u = scriptRun v) ∧
    scriptRun () =
      (["Doubled: [2, 4, 6, 8, 10]",
        "Even numbers: [2, 4]",
        "Sum: 15",
        "Hello, my name is Alice and I am 30 years old.",
        "Area of circle with radius 5.0: 78.54",
        "Yellow color code: Not found",
        "Conversion error: invalid literal for int() with base 10: \x27not a number\x27"],
       0) := by
  refine ⟨fun u v => rfl, ?_⟩
  simp only [scriptRun, topLevelOutput, mainBlockOutput, areaLine]
  decide
